import Mathlib

/-!
A shallow embedding of `poster_processor.py` (sagar4884/poster-overlay-movies)
and theorems checking its natural-language specification against it.

Modelling conventions:
* a filesystem path is its list of components (`List String`); the result of
  the rglob enumeration of the media root is an abstract directory listing, a list of
  `(path, is_dir)` pairs supplied by the OS collaborator;
* the filesystem content is a partial map from paths to abstract file
  contents `Val`;
* external collaborators (HTTP responses, PIL decoding success, font and
  overlay-asset presence) are oracle fields of a `World` record;
* observable side effects (network requests, log lines, rate-limit sleeps)
  are accumulated in `Event` lists;
* Python floats are modelled as rationals, Python ints as `Int`/`Nat`.
-/

namespace Poster

/-- `ORIGINAL_FOLDER_NAME` (poster_processor.py line 31). -/
def ORIGINAL_FOLDER_NAME : String := "original"

/-- `ORIGINAL_POSTER_NAME` (line 32). -/
def ORIGINAL_POSTER_NAME : String := "original_poster.jpg"

/-- `FINAL_POSTER_NAME` (line 33). -/
def FINAL_POSTER_NAME : String := "poster.jpg"

/-- `TMDB_BASE_URL` (line 26). -/
def TMDB_BASE_URL : String := "https://api.themoviedb.org/3/movie/"

/-- `TMDB_IMAGE_BASE_URL` (line 27). -/
def TMDB_IMAGE_BASE_URL : String := "https://image.tmdb.org/t/p/"

/-- `IMAGE_SIZE_PATH` (line 28). -/
def IMAGE_SIZE_PATH : String := "original"

/-- The font file path hard-coded at lines 138 and 329. -/
def FONT_PATH : String := "/usr/share/fonts/truetype/dejavu/DejaVuSans-Bold.ttf"

/-- The environment-derived configuration (lines 13-53). `Option` fields model
`os.environ.get` results that may be unset (unset and empty are conflated,
both being falsy in the guards that consult them). -/
structure Config where
  TMDB_API_KEY : String
  MIN_VOTE_COUNT : Int
  RESTORE_MODE : Bool
  APPLY_STATIC_OVERLAY : Bool
  APPLY_TMDB_RATING : Bool
  APPLY_IMDB_RATING : Bool
  PLEX_REFRESH : Bool
  PLEX_IP : Option String
  PLEX_PORT : Option String
  PLEX_TOKEN : Option String
  PLEX_LIBRARY_IDS : List String

/-- The JSON record returned by the TMDb detail endpoint; only the fields the
program reads.  `none` models an absent key (the code reads them with
`data.get(key, default)` or `data.get(key)`). -/
structure MovieMeta where
  poster_path : Option String
  vote_average : Option ℚ
  vote_count : Option Int
deriving DecidableEq

/-- One overlay layer alpha-composited onto the working image. -/
inductive Layer
  | static
  | tmdbBadge (percent : Int)
  | imdbBox (text : String)
deriving DecidableEq

/-- Abstract file contents: either opaque bytes (`raw`, e.g. the cached
original written by `fetch_poster`) or a flattened JPEG produced by the
compositor save at line 247-248, remembering its base and composited layers
for observability. -/
inductive Val
  | raw (n : Nat)
  | jpeg (base : Val) (layers : List Layer) (q : Nat)
deriving DecidableEq

/-- The in-memory working image of `process_movie_folder`: the decoded base
file plus the layers composited so far. -/
structure WImg where
  base : Val
  layers : List Layer
deriving DecidableEq

/-- An observable side effect. -/
inductive Event
  | netGet (url : String)
  | logMsg (msg : String)
  | sleep
deriving DecidableEq

/-- The filesystem: a partial map from paths to file contents. -/
def FS : Type := List String → Option Val

/-- Writing one file. -/
def FS.write (fs : FS) (a : List String) (v : Val) : FS :=
  fun q => if q = a then some v else fs q

/-- The external collaborators consumed by the core, as oracles: HTTP
responses, PIL decode/save success, and asset/font presence. -/
structure World where
  details : Nat → Option MovieMeta
  image : String → Option Nat
  fontFileExists : Bool
  baseLoadOk : Val → Bool
  staticOverlayIsFile : Bool
  staticOverlayLoads : Bool
  tmdbOverlayIsFile : String → Bool
  tmdbOverlayLoads : String → Bool
  saveOk : Bool
  plexOk : String → Bool

/-- `<folder>/original/original_poster.jpg` (lines 71-72, 181, 281). -/
def original_poster_path (movie_path : List String) : List String :=
  movie_path ++ [ORIGINAL_FOLDER_NAME, ORIGINAL_POSTER_NAME]

/-- `<folder>/poster.jpg` (lines 182, 282). -/
def final_poster_path (movie_path : List String) : List String :=
  movie_path ++ [FINAL_POSTER_NAME]

/-- `Path.name`: the last path component. -/
def nameOf (p : List String) : String := p.getLastD ""

/-- `str.lower()` restricted to its ASCII behaviour. -/
def lowerStr (s : String) : String := String.mk (s.data.map Char.toLower)

/-- The filter `movie_path.name.lower() != ORIGINAL_FOLDER_NAME`
(lines 280 and 320). -/
def notOriginal (p : List String) : Bool :=
  lowerStr (nameOf p) != ORIGINAL_FOLDER_NAME

/-! ### The TMDb id pattern

`TMDB_ID_REGEX = re.compile(r"\[tmdbid-(\d+)\]", re.IGNORECASE)` (line 30),
used as `TMDB_ID_REGEX.search(movie_path.name)` followed by
`int(match.group(1))` (lines 321-325).  `re.search` returns the leftmost
match; `\d+` takes the maximal digit run, which must be followed by `]`. -/

/-- The literal marker `[tmdbid-`, lowercased. -/
def MARKER : List Char := ['[', 't', 'm', 'd', 'b', 'i', 'd', '-']

/-- Case-insensitively strip a lowercase marker from the front of a string. -/
def ciStripMarker : List Char → List Char → Option (List Char)
  | [], s => some s
  | _ :: _, [] => none
  | m :: ms, c :: cs => if c.toLower = m then ciStripMarker ms cs else none

/-- `int(group(1))` on the matched digit run. -/
def digitsVal (l : List Char) : Nat :=
  l.foldl (fun a c => 10 * a + (c.toNat - 48)) 0

/-- Try to match `\[tmdbid-(\d+)\]` (case-insensitive) at the head. -/
def matchMarkerAt (s : List Char) : Option Nat :=
  match ciStripMarker MARKER s with
  | none => none
  | some rest =>
    let ds := rest.takeWhile Char.isDigit
    match rest.drop ds.length with
    | ']' :: _ => if ds.isEmpty then none else some (digitsVal ds)
    | _ => none

/-- Leftmost search for the pattern, as `re.search` does. -/
def tmdbSearchChars : List Char → Option Nat
  | [] => none
  | c :: cs =>
    match matchMarkerAt (c :: cs) with
    | some v => some v
    | none => tmdbSearchChars cs

/-- `TMDB_ID_REGEX.search(name)` followed by `int(match.group(1))`,
returning `none` when the pattern does not occur in `name`. -/
def tmdbSearch (s : String) : Option Nat := tmdbSearchChars s.data

/-! ### Rating arithmetic (line 224) -/

/-- Python `round` on a real value: round half to even. -/
def pythonRound (q : ℚ) : Int :=
  let f : Int := Int.floor q
  let r : ℚ := q - (f : ℚ)
  if r < 1/2 then f
  else if 1/2 < r then f + 1
  else if f % 2 = 0 then f else f + 1

/-- `max(0, min(100, int(round(vote_average * 10))))` (line 224). -/
def ratingPercentZ (vote_average : ℚ) : Int :=
  max 0 (min 100 (pythonRound (vote_average * 10)))

/-- `f"r{rating_percent}.png"` (line 225). -/
def badgeFileName (rating_percent : Int) : String :=
  "r" ++ toString rating_percent ++ ".png"

/-- Modelled from the spec (section 4.4 step 3 and section 8):
`clamp(round(average_rating * 10), 0, 100)` with the conventional
`clamp(x, lo, hi) = min hi (max lo x)`; to be compared with the code
definition `ratingPercentZ`. -/
def spec_clamp (x lo hi : Int) : Int := min hi (max lo x)

/-! ### Log messages (only those theorems refer to; text without quotes) -/

/-- The fatal font message printed at line 330. -/
def fontFatalMsg : String :=
  "[FATAL] Font " ++ FONT_PATH ++ " required for IMDB overlay is missing. Please use a Python image with fonts installed or disable IMDB overlay."

/-- Line 222. -/
def belowMsg (vote_count mn : Int) : String :=
  "   [INFO] TMDb vote count (" ++ toString vote_count ++ ") below threshold (" ++ toString mn ++ "). Skipping TMDb overlay."

/-- Line 256. -/
def plexWarnMsg : String :=
  "[WARN] Plex Refresh is enabled but connection details are incomplete. Skipping refresh."

/-- Line 259. -/
def plexAttemptMsg : String := "Attempting Plex Library Refresh..."

/-- Line 109, the first statement of `apply_imdb_rating_overlay`. -/
def imdbFetchMsg : String := "   -> Fetching IMDb rating..."

/-- The exception raised at line 114: `vote_average` is referenced but its
defining code was elided (the line 111 comment says the fetch logic
`remains the same` but it is not present). -/
def imdbNameErrorMsg : String := "NameError: name vote_average is not defined"

/-! ### MetadataClient: `get_movie_details` (lines 58-67) -/

/-- The detail URL built at line 60. -/
def detailUrl (cfg : Config) (tmdb_id : Nat) : String :=
  TMDB_BASE_URL ++ toString tmdb_id ++ "?api_key=" ++ cfg.TMDB_API_KEY
    ++ "&append_to_response=external_ids"

/-- `get_movie_details`: one GET to the detail endpoint; on any request
failure an error is logged and `None` returned (lines 61-67). -/
def get_movie_details (cfg : Config) (w : World) (tmdb_id : Nat) :
    Option MovieMeta × List Event :=
  match w.details tmdb_id with
  | some d => (some d, [Event.netGet (detailUrl cfg tmdb_id)])
  | none =>
    (none, [Event.netGet (detailUrl cfg tmdb_id),
            Event.logMsg ("   [ERROR] Failed to fetch details for ID " ++ toString tmdb_id)])

/-! ### PosterAcquirer: `fetch_poster` (lines 69-105) -/

/-- `fetch_poster`: returns `(success, filesystem, events)`.  The early
return at lines 74-75 fires when the cache file exists.  `w.image url`
abstracts the whole `try` block of lines 89-105 (download, decode, resize and
save): `some bytes` is the resized q90 JPEG that gets written, `none` any
failure inside the block (the GET itself is still issued). -/
def fetch_poster (cfg : Config) (w : World) (tmdb_id : Nat)
    (movie_path : List String) (fs : FS) : Bool × FS × List Event :=
  let output_file := original_poster_path movie_path
  if (fs output_file).isSome then (true, fs, [])
  else
    match get_movie_details cfg w tmdb_id with
    | (none, ev) => (false, fs, ev)
    | (some d, ev) =>
      match d.poster_path with
      | none =>
        (false, fs, ev ++ [Event.logMsg ("   [WARN] No poster_path found for TMDb ID " ++ toString tmdb_id ++ ".")])
      | some sfx =>
        let image_url := TMDB_IMAGE_BASE_URL ++ IMAGE_SIZE_PATH ++ sfx
        match w.image image_url with
        | none =>
          (false, fs, ev ++ [Event.netGet image_url,
                             Event.logMsg "   [ERROR] Could not process or save image."])
        | some bytes =>
          (true, FS.write fs output_file (Val.raw bytes),
           ev ++ [Event.netGet image_url,
                  Event.logMsg ("   [SUCCESS] Saved original poster to: " ++ ORIGINAL_POSTER_NAME)])

/-! ### OverlayCompositor (lines 107-251) -/

/-- `apply_imdb_rating_overlay` (lines 107-174): after the opening print the
body evaluates `round(vote_average, 1)` (line 114), but `vote_average` is
never defined in the function (the rating-fetch logic was elided at line
111), so every call raises `NameError` before any drawing happens. -/
def apply_imdb_rating_overlay (base_img : WImg) (tmdb_id : Nat) :
    List Event × Except String WImg :=
  ([Event.logMsg imdbFetchMsg], Except.error imdbNameErrorMsg)

/-- The static overlay layer (lines 199-211): missing file or any failure
inside the `try` is logged and only this layer is skipped. -/
def staticLayerStep (cfg : Config) (w : World) (img : WImg) : WImg × List Event :=
  if cfg.APPLY_STATIC_OVERLAY then
    if !w.staticOverlayIsFile then
      (img, [Event.logMsg "   [FATAL] Static overlay file not found. Skipping static overlay."])
    else if w.staticOverlayLoads then
      (⟨img.base, img.layers ++ [Layer.static]⟩,
       [Event.logMsg "   [SUCCESS] Static overlay applied."])
    else (img, [Event.logMsg "   [ERROR] Failed to apply static overlay."])
  else (img, [])

/-- The TMDb rating-badge layer (lines 213-238): refetch the metadata, read
`vote_average`/`vote_count` with defaults `0.0`/`0` (lines 218-219), skip on
a below-threshold vote count (line 221), otherwise pick `r<percent>.png` and
composite it, each failure skipping only this layer. -/
def tmdbLayerStep (cfg : Config) (w : World) (tmdb_id : Nat) (img : WImg) :
    WImg × List Event :=
  if cfg.APPLY_TMDB_RATING then
    match get_movie_details cfg w tmdb_id with
    | (none, ev) => (img, ev)
    | (some d, ev) =>
      let vote_average := d.vote_average.getD 0
      let vote_count := d.vote_count.getD 0
      if vote_count < cfg.MIN_VOTE_COUNT then
        (img, ev ++ [Event.logMsg (belowMsg vote_count cfg.MIN_VOTE_COUNT)])
      else
        let rating_percent := ratingPercentZ vote_average
        let fname := badgeFileName rating_percent
        if !w.tmdbOverlayIsFile fname then
          (img, ev ++ [Event.logMsg ("   [FATAL] TMDb overlay file not found: " ++ fname ++ ". Skipping TMDb overlay.")])
        else if w.tmdbOverlayLoads fname then
          (⟨img.base, img.layers ++ [Layer.tmdbBadge rating_percent]⟩,
           ev ++ [Event.logMsg ("   [SUCCESS] Applied TMDb rating overlay: " ++ toString rating_percent ++ "%.")])
        else (img, ev ++ [Event.logMsg "   [ERROR] Failed to apply TMDb rating overlay."])
  else (img, [])

/-- The result of processing one folder: the filesystem afterwards, the
events, and `some e` when an exception escaped the function. -/
structure PRes where
  fs : FS
  events : List Event
  exn : Option String

/-- The final save (lines 244-251): flatten to RGB and write `poster.jpg` at
q95; a save failure is caught and logged. -/
def saveFinal (w : World) (fs : FS) (fpath : List String) (img : WImg)
    (ev : List Event) : PRes :=
  if w.saveOk then
    ⟨FS.write fs fpath (Val.jpeg img.base img.layers 95),
     ev ++ [Event.logMsg ("   [FINAL] Saved final poster to: " ++ FINAL_POSTER_NAME)], none⟩
  else ⟨fs, ev ++ [Event.logMsg "   [ERROR] Failed to save final poster."], none⟩

/-- `process_movie_folder` (lines 176-251): acquire, load the cached
original, apply the three layers in order, save.  The call to
`apply_imdb_rating_overlay` at line 242 is not wrapped in any `try`, so an
exception there escapes the function (`exn` becomes `some`). -/
def process_movie_folder (cfg : Config) (w : World) (movie_path : List String)
    (tmdb_id : Nat) (fs : FS) : PRes :=
  let opath := original_poster_path movie_path
  let fpath := final_poster_path movie_path
  match fetch_poster cfg w tmdb_id movie_path fs with
  | (false, fs1, ev1) => ⟨fs1, ev1, none⟩
  | (true, fs1, ev1) =>
    match fs1 opath with
    | none => ⟨fs1, ev1 ++ [Event.logMsg "   [FATAL] Could not load base image."], none⟩
    | some v =>
      if w.baseLoadOk v then
        let s1 := staticLayerStep cfg w ⟨v, []⟩
        let s2 := tmdbLayerStep cfg w tmdb_id s1.1
        if cfg.APPLY_IMDB_RATING then
          match apply_imdb_rating_overlay s2.1 tmdb_id with
          | (evI, Except.error e) => ⟨fs1, ev1 ++ s1.2 ++ s2.2 ++ evI, some e⟩
          | (evI, Except.ok img3) => saveFinal w fs1 fpath img3 (ev1 ++ s1.2 ++ s2.2 ++ evI)
        else saveFinal w fs1 fpath s2.1 (ev1 ++ s1.2 ++ s2.2)
      else ⟨fs1, ev1 ++ [Event.logMsg "   [FATAL] Could not load base image."], none⟩

/-! ### LibraryRefreshNotifier: `run_plex_refresh` (lines 253-270) -/

/-- The guard at line 255, negated: all connection details present. -/
def plexConfigured (cfg : Config) : Bool :=
  cfg.PLEX_REFRESH && cfg.PLEX_IP.isSome && cfg.PLEX_PORT.isSome
    && cfg.PLEX_TOKEN.isSome && !cfg.PLEX_LIBRARY_IDS.isEmpty

/-- The refresh URL built at line 262. -/
def plexUrl (cfg : Config) (library_id : String) : String :=
  "http://" ++ cfg.PLEX_IP.getD "" ++ ":" ++ cfg.PLEX_PORT.getD ""
    ++ "/library/sections/" ++ library_id ++ "/refresh?X-Plex-Token="
    ++ cfg.PLEX_TOKEN.getD ""

/-- The per-target body of the loop at lines 261-270: trigger log, one GET,
and a success or error log depending on the response. -/
def plexAction (cfg : Config) (w : World) (library_id : String) : List Event :=
  [Event.logMsg ("   -> Triggering refresh for section ID: " ++ library_id),
   Event.netGet (plexUrl cfg library_id),
   Event.logMsg (if w.plexOk library_id
     then "   [SUCCESS] Plex refresh initiated for ID " ++ library_id ++ "."
     else "   [ERROR] Failed to call Plex refresh API for ID " ++ library_id ++ ".")]

/-- `run_plex_refresh`: warn and do nothing when any detail is missing,
otherwise loop over every configured library id, catching each request
failure independently. -/
def run_plex_refresh (cfg : Config) (w : World) : List Event :=
  if plexConfigured cfg then
    Event.logMsg plexAttemptMsg :: cfg.PLEX_LIBRARY_IDS.flatMap (plexAction cfg w)
  else [Event.logMsg plexWarnMsg]

/-! ### RestoreManager: `restore_posters` (lines 272-297) -/

/-- Restore message for one folder (line 288). -/
def restoreMsg (folder_name : String) : String :=
  "   [RESTORE] Copied " ++ ORIGINAL_POSTER_NAME ++ " to " ++ FINAL_POSTER_NAME
    ++ " for: " ++ folder_name

/-- The `for` loop of lines 279-293 over the `rglob` listing, threading the
filesystem, the `found_restores` counter and the log: every directory other
than the cache folder whose `original/original_poster.jpg` exists gets it
copied over `poster.jpg`. -/
def restoreGo : List (List String × Bool) → FS → Nat → List Event →
    FS × Nat × List Event
  | [], fs, n, ev => (fs, n, ev)
  | pb :: rest, fs, n, ev =>
    if pb.2 && notOriginal pb.1 then
      match fs (original_poster_path pb.1) with
      | some v =>
        restoreGo rest (FS.write fs (final_poster_path pb.1) v) (n + 1)
          (ev ++ [Event.logMsg (restoreMsg (nameOf pb.1))])
      | none => restoreGo rest fs n ev
    else restoreGo rest fs n ev

/-- `restore_posters`: returns the final filesystem, the restoration count
and the events.  It issues no network request. -/
def restore_posters (fs : FS) (listing : List (List String × Bool)) :
    FS × Nat × List Event :=
  restoreGo listing fs 0 []

/-- A directory entry the restore loop actually restores (relative to a
reference filesystem). -/
def isRestorable (fs : FS) (pb : List String × Bool) : Bool :=
  pb.2 && notOriginal pb.1 && (fs (original_poster_path pb.1)).isSome

/-! ### DirectoryScanner and orchestrator: `main` (lines 299-342) -/

/-- The scanner condition of lines 320-323 for one listing entry: a
directory, not the cache folder, whose name contains the id pattern. -/
def folderMatch (pb : List String × Bool) : Option Nat :=
  if pb.2 && notOriginal pb.1 then tmdbSearch (nameOf pb.1) else none

/-- The folders the scan loop processes, each paired with its parsed id. -/
def scan_movie_folders (listing : List (List String × Bool)) :
    List (List String × Nat) :=
  listing.filterMap (fun pb => (folderMatch pb).map (fun id => (pb.1, id)))

/-- How one run ends. -/
inductive RunOutcome
  | fatalExit (msg : String)
  | crashed (msg : String)
  | completed
deriving DecidableEq

/-- The scan loop of lines 319-334: for each matching folder, count it,
check the font precondition when the rendered badge is enabled (lines
328-331, `sys.exit(1)` on a missing font), then process the folder and
sleep.  An exception escaping `process_movie_folder` is uncaught and crashes
the run.  Returns (outcome, filesystem, events, `found_movies`). -/
def mainScanLoop (cfg : Config) (w : World) :
    List (List String × Bool) → FS → RunOutcome × FS × List Event × Nat
  | [], fs => (RunOutcome.completed, fs, [], 0)
  | pb :: rest, fs =>
    match folderMatch pb with
    | none => mainScanLoop cfg w rest fs
    | some tmdb_id =>
      if cfg.APPLY_IMDB_RATING && !w.fontFileExists then
        (RunOutcome.fatalExit fontFatalMsg, fs, [Event.logMsg fontFatalMsg], 1)
      else
        let r := process_movie_folder cfg w pb.1 tmdb_id fs
        match r.exn with
        | some e => (RunOutcome.crashed e, r.fs, r.events, 1)
        | none =>
          let rec0 := mainScanLoop cfg w rest r.fs
          (rec0.1, rec0.2.1, r.events ++ [Event.sleep] ++ rec0.2.2.1, rec0.2.2.2 + 1)

/-- `main` (lines 299-342), with the media root assumed to exist: in restore
mode run `restore_posters` then, when enabled, `run_plex_refresh`
(lines 306-310); otherwise run the scan loop and, on normal completion only,
the refresh (lines 339-340). -/
def main (cfg : Config) (w : World) (listing : List (List String × Bool))
    (fs : FS) : RunOutcome × FS × List Event × Nat :=
  if cfg.RESTORE_MODE then
    let r := restore_posters fs listing
    (RunOutcome.completed, r.1,
     r.2.2 ++ (if cfg.PLEX_REFRESH then run_plex_refresh cfg w else []), 0)
  else
    let r := mainScanLoop cfg w listing fs
    match r.1 with
    | RunOutcome.completed =>
      (RunOutcome.completed, r.2.1,
       r.2.2.1 ++ (if cfg.PLEX_REFRESH then run_plex_refresh cfg w else []), r.2.2.2)
    | o => (o, r.2.1, r.2.2.1, r.2.2.2)

/-- The network requests among a list of events. -/
def netGetsOf (l : List Event) : List String :=
  l.filterMap (fun e => match e with | Event.netGet u => some u | _ => none)

/-! ## Helper lemmas -/

theorem netGetsOf_append (a b : List Event) :
    netGetsOf (a ++ b) = netGetsOf a ++ netGetsOf b :=
  List.filterMap_append a b _

theorem netGetsOf_logs (ev : List Event) (m : String) :
    netGetsOf (ev ++ [Event.logMsg m]) = netGetsOf ev := by
  rw [netGetsOf_append]; simp [netGetsOf]

theorem FS.write_self (fs : FS) (a : List String) (v : Val) :
    FS.write fs a v a = some v := by
  simp [FS.write]

theorem FS.write_ne (fs : FS) (a q : List String) (v : Val) (h : q ≠ a) :
    FS.write fs a v q = fs q := by
  simp [FS.write, h]

theorem final_poster_path_getLast (p : List String) :
    (final_poster_path p).getLast? = some FINAL_POSTER_NAME :=
  List.getLast?_concat p

theorem original_poster_path_getLast (p : List String) :
    (original_poster_path p).getLast? = some ORIGINAL_POSTER_NAME := by
  have : original_poster_path p = (p ++ [ORIGINAL_FOLDER_NAME]) ++ [ORIGINAL_POSTER_NAME] := by
    simp [original_poster_path]
  rw [this]
  exact List.getLast?_concat _

theorem final_ne_original_path (p q : List String) :
    final_poster_path p ≠ original_poster_path q := by
  intro h
  have h1 := final_poster_path_getLast p
  have h2 := original_poster_path_getLast q
  rw [h] at h1
  rw [h1] at h2
  have : FINAL_POSTER_NAME = ORIGINAL_POSTER_NAME := by injection h2
  exact absurd this (by decide)

theorem final_poster_path_inj (p q : List String)
    (h : final_poster_path p = final_poster_path q) : p = q :=
  List.append_cancel_right h

/-- A cached original in place means `fetch_poster` takes the early return of
lines 74-75. -/
theorem fetch_poster_cached (cfg : Config) (w : World) (tmdb_id : Nat)
    (movie_path : List String) (fs : FS) (v : Val)
    (h : fs (original_poster_path movie_path) = some v) :
    fetch_poster cfg w tmdb_id movie_path fs = (true, fs, []) := by
  simp [fetch_poster, h]

/-! ## Claims -/

/-- C3: acquisition is idempotent.  If the canonical original-cache file
exists, `fetch_poster` returns success with the filesystem untouched and an
empty event list: in particular zero network requests are issued and the
cached original is unchanged. -/
theorem fetch_poster_idempotent (cfg : Config) (w : World) (tmdb_id : Nat)
    (movie_path : List String) (fs : FS) (v : Val)
    (h : fs (original_poster_path movie_path) = some v) :
    fetch_poster cfg w tmdb_id movie_path fs = (true, fs, [])
      ∧ netGetsOf (fetch_poster cfg w tmdb_id movie_path fs).2.2 = []
      ∧ (fetch_poster cfg w tmdb_id movie_path fs).2.1 (original_poster_path movie_path) = some v := by
  have e := fetch_poster_cached cfg w tmdb_id movie_path fs v h
  refine ⟨e, ?_, ?_⟩ <;> rw [e] <;> simp [netGetsOf, h]

/-- A fully concrete configuration used by the witnesses. -/
def cfg0 : Config :=
  ⟨"key", 500, false, false, false, false, false, none, none, none, []⟩

/-- A fully concrete world used by the witnesses. -/
def w0 : World :=
  ⟨fun _ => none, fun _ => none, true, fun _ => true, false, false,
   fun _ => false, fun _ => false, true, fun _ => true⟩

/-- A filesystem holding exactly one cached original. -/
def fsC3 : FS :=
  fun q => if q = original_poster_path ["Movie (2020) [tmdbid-603]"]
    then some (Val.raw 3) else none

theorem fetch_poster_idempotent_witness :
    fsC3 (original_poster_path ["Movie (2020) [tmdbid-603]"]) = some (Val.raw 3)
      ∧ (fetch_poster cfg0 w0 603 ["Movie (2020) [tmdbid-603]"] fsC3 = (true, fsC3, [])
        ∧ netGetsOf (fetch_poster cfg0 w0 603 ["Movie (2020) [tmdbid-603]"] fsC3).2.2 = []
        ∧ (fetch_poster cfg0 w0 603 ["Movie (2020) [tmdbid-603]"] fsC3).2.1
            (original_poster_path ["Movie (2020) [tmdbid-603]"]) = some (Val.raw 3)) :=
  ⟨by simp [fsC3],
   fetch_poster_idempotent cfg0 w0 603 ["Movie (2020) [tmdbid-603]"] fsC3 (Val.raw 3)
     (by simp [fsC3])⟩

/-- C4: for every `average_rating` in `[0, 10]` the percent computed at line
224 equals `clamp(round(average_rating * 10), 0, 100)`, stays in `[0, 100]`,
maps 8.1 to 81, 10.0 to 100 and 0.0 to 0, and the selected asset file name
is `r<percent>.png`. -/
theorem rating_percent_matches_spec (va : ℚ) (h0 : 0 ≤ va) (h1 : va ≤ 10) :
    ratingPercentZ va = spec_clamp (pythonRound (va * 10)) 0 100
      ∧ 0 ≤ ratingPercentZ va ∧ ratingPercentZ va ≤ 100
      ∧ ratingPercentZ (81/10) = 81 ∧ ratingPercentZ 10 = 100 ∧ ratingPercentZ 0 = 0
      ∧ badgeFileName (ratingPercentZ (81/10)) = "r81.png"
      ∧ badgeFileName (ratingPercentZ 10) = "r100.png"
      ∧ badgeFileName (ratingPercentZ 0) = "r0.png" := by
  have e81 : ratingPercentZ (81/10) = 81 := by norm_num [ratingPercentZ, pythonRound]
  have e10 : ratingPercentZ 10 = 100 := by norm_num [ratingPercentZ, pythonRound]
  have e0 : ratingPercentZ 0 = 0 := by norm_num [ratingPercentZ, pythonRound]
  refine ⟨?_, ?_, ?_, e81, e10, e0, ?_, ?_, ?_⟩
  · unfold ratingPercentZ spec_clamp; omega
  · unfold ratingPercentZ; omega
  · unfold ratingPercentZ; omega
  · rw [e81]; rfl
  · rw [e10]; rfl
  · rw [e0]; rfl

theorem rating_percent_matches_spec_witness :
    (0 : ℚ) ≤ 81/10 ∧ (81/10 : ℚ) ≤ 10
      ∧ (ratingPercentZ (81/10) = spec_clamp (pythonRound (81/10 * 10)) 0 100
        ∧ 0 ≤ ratingPercentZ (81/10) ∧ ratingPercentZ (81/10) ≤ 100
        ∧ ratingPercentZ (81/10) = 81 ∧ ratingPercentZ 10 = 100 ∧ ratingPercentZ 0 = 0
        ∧ badgeFileName (ratingPercentZ (81/10)) = "r81.png"
        ∧ badgeFileName (ratingPercentZ 10) = "r100.png"
        ∧ badgeFileName (ratingPercentZ 0) = "r0.png") :=
  ⟨by norm_num, by norm_num,
   rating_percent_matches_spec (81/10) (by norm_num) (by norm_num)⟩

theorem netGets_plexActions (cfg : Config) (w : World) (ids : List String) :
    netGetsOf (ids.flatMap (plexAction cfg w)) = ids.map (plexUrl cfg) := by
  induction ids with
  | nil => rfl
  | cons a rest ih =>
    rw [List.flatMap_cons, netGetsOf_append, ih]
    simp [plexAction, netGetsOf]

/-- C9: the refresh notifier issues requests only when the feature flag,
host, port, token and at least one target id are all configured (otherwise
it only logs the warning), and the requests issued are exactly one per
configured target, independent of the per-target response (so a failure of
one target never suppresses the remaining targets). -/
theorem plex_refresh_requests (cfg : Config) (w : World) :
    netGetsOf (run_plex_refresh cfg w)
        = (if plexConfigured cfg then cfg.PLEX_LIBRARY_IDS.map (plexUrl cfg) else [])
      ∧ (plexConfigured cfg = false ↔ run_plex_refresh cfg w = [Event.logMsg plexWarnMsg]) := by
  cases hc : plexConfigured cfg
  · simp [run_plex_refresh, hc, netGetsOf]
  · constructor
    · rw [run_plex_refresh, if_pos hc]
      show netGetsOf (Event.logMsg plexAttemptMsg :: _) = _
      have : netGetsOf (Event.logMsg plexAttemptMsg :: cfg.PLEX_LIBRARY_IDS.flatMap (plexAction cfg w))
          = netGetsOf (cfg.PLEX_LIBRARY_IDS.flatMap (plexAction cfg w)) := by
        simp [netGetsOf]
      rw [this, netGets_plexActions]
      simp
    · constructor
      · intro h; cases h
      · intro h
        rw [run_plex_refresh, if_pos hc] at h
        have : plexAttemptMsg = plexWarnMsg := by
          have := List.head_eq_of_cons_eq h
          injection this
        exact absurd this (by decide)

/-- When the rendered-badge feature is on and the font file is missing, the
scan loop exits fatally on the first matching folder, before processing any
folder: the filesystem is untouched, the only event is the single fatal log,
and `found_movies` is 1. -/
theorem scanLoop_font_missing (cfg : Config) (w : World)
    (h2 : cfg.APPLY_IMDB_RATING = true) (h3 : w.fontFileExists = false) :
    ∀ (l : List (List String × Bool)) (fs : FS), scan_movie_folders l ≠ [] →
      mainScanLoop cfg w l fs
        = (RunOutcome.fatalExit fontFatalMsg, fs, [Event.logMsg fontFatalMsg], 1) := by
  intro l
  induction l with
  | nil => intro fs h; simp [scan_movie_folders] at h
  | cons pb rest ih =>
    intro fs h
    cases hm : folderMatch pb with
    | none =>
      rw [show mainScanLoop cfg w (pb :: rest) fs = mainScanLoop cfg w rest fs by
        simp [mainScanLoop, hm]]
      apply ih
      simpa [scan_movie_folders, List.filterMap_cons, hm] using h
    | some id =>
      simp [mainScanLoop, hm, h2, h3]

/-- C1 (amended): when the rendered-badge feature is enabled, the font file
is missing and the scan yields at least one matching folder, the run aborts
fatally at the first matching folder and before any folder is processed (the
filesystem is unchanged, the fatal message is logged exactly once and no
other event occurs). -/
theorem font_missing_aborts_at_first_match (cfg : Config) (w : World)
    (l : List (List String × Bool)) (fs : FS)
    (h1 : cfg.RESTORE_MODE = false) (h2 : cfg.APPLY_IMDB_RATING = true)
    (h3 : w.fontFileExists = false) (h4 : scan_movie_folders l ≠ []) :
    main cfg w l fs
      = (RunOutcome.fatalExit fontFatalMsg, fs, [Event.logMsg fontFatalMsg], 1) := by
  rw [main, if_neg (by simp [h1])]
  rw [scanLoop_font_missing cfg w h2 h3 l fs h4]

/-- The configuration of the C1 counterexample and witness: rendered badge
enabled, nothing else. -/
def cfgC1 : Config := ⟨"k", 500, false, false, false, true, false, none, none, none, []⟩

/-- The world of the C1 counterexample and witness: the font file is
missing. -/
def wC1 : World :=
  ⟨fun _ => none, fun _ => none, false, fun _ => true, false, false,
   fun _ => false, fun _ => false, true, fun _ => true⟩

/-- A listing with exactly one matching folder. -/
def listingW1 : List (List String × Bool) := [(["Movie (2020) [tmdbid-603]"], true)]

theorem font_missing_aborts_at_first_match_witness :
    cfgC1.RESTORE_MODE = false ∧ cfgC1.APPLY_IMDB_RATING = true
      ∧ wC1.fontFileExists = false
      ∧ scan_movie_folders listingW1 ≠ []
      ∧ main cfgC1 wC1 listingW1 (fun _ => none)
          = (RunOutcome.fatalExit fontFatalMsg, (fun _ => none),
             [Event.logMsg fontFatalMsg], 1) :=
  ⟨rfl, rfl, rfl, by decide,
   font_missing_aborts_at_first_match cfgC1 wC1 listingW1 _ rfl rfl rfl (by decide)⟩

/-- A listing with no folder matching the id pattern. -/
def listingC1 : List (List String × Bool) :=
  [(["original"], true), (["Movies"], true), (["readme.txt"], false)]

/-- C1 counterexample: with the rendered-badge feature enabled and the font
file absent, a run over a tree with no matching folder never performs the
font check, so the absence is not detected and the run completes normally
instead of aborting with a fatal error — the check at lines 328-331 is
per-matching-folder, not once before the scan. -/
theorem font_missing_can_go_undetected :
    cfgC1.APPLY_IMDB_RATING = true ∧ wC1.fontFileExists = false
      ∧ (main cfgC1 wC1 listingC1 (fun _ => none)).1 = RunOutcome.completed
      ∧ (main cfgC1 wC1 listingC1 (fun _ => none)).2.2.1 = [] :=
  ⟨rfl, rfl, by decide, by decide⟩

/-- C2 (code bug): with the rendered (IMDb-styled) rating layer enabled, the
call into `apply_imdb_rating_overlay` raises `NameError` (line 114 uses the
undefined `vote_average`); the exception is not caught at line 242 nor in
the scan loop, so the final save of the folder is skipped and the whole run
crashes, contradicting the claim that an overlay-layer failure is non-fatal.
Stated at a run whose single folder has a cached original and a loadable
base image, with the other overlay layers disabled. -/
theorem imdb_layer_failure_crashes_run (cfg : Config) (w : World)
    (p : List String) (tmdb_id : Nat) (v : Val) (fs : FS)
    (h1 : cfg.RESTORE_MODE = false) (h2 : cfg.APPLY_IMDB_RATING = true)
    (h3 : cfg.APPLY_STATIC_OVERLAY = false) (h4 : cfg.APPLY_TMDB_RATING = false)
    (h5 : w.fontFileExists = true)
    (h6 : folderMatch (p, true) = some tmdb_id)
    (h7 : fs (original_poster_path p) = some v)
    (h8 : w.baseLoadOk v = true) :
    main cfg w [(p, true)] fs
      = (RunOutcome.crashed imdbNameErrorMsg, fs, [Event.logMsg imdbFetchMsg], 1) := by
  have hf := fetch_poster_cached cfg w tmdb_id p fs v h7
  have hp : process_movie_folder cfg w p tmdb_id fs
      = ⟨fs, [Event.logMsg imdbFetchMsg], some imdbNameErrorMsg⟩ := by
    rw [process_movie_folder]
    rw [hf]
    simp [h7, h8, staticLayerStep, h3, tmdbLayerStep, h4, h2, apply_imdb_rating_overlay]
  rw [main, if_neg (by simp [h1])]
  rw [show mainScanLoop cfg w [(p, true)] fs
      = (RunOutcome.crashed imdbNameErrorMsg, fs, [Event.logMsg imdbFetchMsg], 1) by
    simp [mainScanLoop, h6, h2, h5, hp]]

/-- The configuration of the C2 witness: rendered badge enabled, other
layers off. -/
def cfgC2 : Config := ⟨"k", 500, false, false, false, true, false, none, none, none, []⟩

/-- The world of the C2 witness: the font file is present. -/
def wC2 : World :=
  ⟨fun _ => none, fun _ => none, true, fun _ => true, false, false,
   fun _ => false, fun _ => false, true, fun _ => true⟩

/-- The folder of the C2 witness. -/
def pC2 : List String := ["Movie (2020) [tmdbid-603]"]

/-- The filesystem of the C2 witness: the cached original is in place. -/
def fsC2 : FS :=
  fun q => if q = original_poster_path pC2 then some (Val.raw 7) else none

theorem imdb_layer_failure_crashes_run_witness :
    cfgC2.RESTORE_MODE = false ∧ cfgC2.APPLY_IMDB_RATING = true
      ∧ cfgC2.APPLY_STATIC_OVERLAY = false ∧ cfgC2.APPLY_TMDB_RATING = false
      ∧ wC2.fontFileExists = true
      ∧ folderMatch (pC2, true) = some 603
      ∧ fsC2 (original_poster_path pC2) = some (Val.raw 7)
      ∧ wC2.baseLoadOk (Val.raw 7) = true
      ∧ main cfgC2 wC2 [(pC2, true)] fsC2
          = (RunOutcome.crashed imdbNameErrorMsg, fsC2, [Event.logMsg imdbFetchMsg], 1) :=
  ⟨rfl, rfl, rfl, rfl, rfl, by decide, by simp [fsC2], rfl,
   imdb_layer_failure_crashes_run cfgC2 wC2 pC2 603 (Val.raw 7) fsC2
     rfl rfl rfl rfl rfl (by decide) (by simp [fsC2]) rfl⟩

theorem restoreGo_netGets : ∀ (l : List (List String × Bool)) (fs : FS) (n : Nat)
    (ev : List Event), netGetsOf (restoreGo l fs n ev).2.2 = netGetsOf ev := by
  intro l
  induction l with
  | nil => intro fs n ev; rfl
  | cons pb rest ih =>
    intro fs n ev
    rw [restoreGo]
    by_cases hc : (pb.2 && notOriginal pb.1) = true
    · rw [if_pos hc]
      cases hv : fs (original_poster_path pb.1) with
      | none => exact ih _ _ _
      | some v => rw [ih, netGetsOf_logs]
    · rw [if_neg hc]; exact ih _ _ _

/-- C6 (amended): in restore mode the orchestrator performs the restore pass
(which issues no network request, hence no acquisition and no compositing)
and then, when the refresh flag is enabled, the library refresh — the
refresh is not suppressed by restore mode. -/
theorem restore_mode_behavior (cfg : Config) (w : World)
    (listing : List (List String × Bool)) (fs : FS)
    (h : cfg.RESTORE_MODE = true) :
    main cfg w listing fs
        = (RunOutcome.completed, (restore_posters fs listing).1,
           (restore_posters fs listing).2.2
             ++ (if cfg.PLEX_REFRESH then run_plex_refresh cfg w else []), 0)
      ∧ netGetsOf (restore_posters fs listing).2.2 = [] := by
  refine ⟨?_, ?_⟩
  · rw [main, if_pos (by simp [h])]
  · exact restoreGo_netGets listing fs 0 []

theorem restore_mode_behavior_witness :
    (let cfg : Config := ⟨"k", 500, true, false, false, false, false, none, none, none, []⟩
     cfg.RESTORE_MODE = true
       ∧ (main cfg w0 [] (fun _ => none)
             = (RunOutcome.completed, (restore_posters (fun _ => none) []).1,
                (restore_posters (fun _ => none) []).2.2
                  ++ (if cfg.PLEX_REFRESH then run_plex_refresh cfg w0 else []), 0)
           ∧ netGetsOf (restore_posters (fun _ => none) []).2.2 = [])) :=
  ⟨rfl, restore_mode_behavior _ w0 [] _ rfl⟩

/-- The configuration of the C6 counterexample: restore mode together with a
fully configured refresh. -/
def cfgC6 : Config :=
  ⟨"k", 500, true, false, false, false, true, some "1.2.3.4", some "32400", some "tok", ["7"]⟩

/-- C6 counterexample: in restore mode with the refresh feature configured,
`main` still issues the library-refresh request (lines 306-310 call
`run_plex_refresh` inside the restore branch), so the orchestrator does not
drive the RestoreManager only. -/
theorem restore_mode_still_refreshes :
    cfgC6.RESTORE_MODE = true
      ∧ Event.netGet (plexUrl cfgC6 "7") ∈ (main cfgC6 w0 [] (fun _ => none)).2.2.1 :=
  ⟨rfl, by decide⟩

theorem staticLayerStep_base_layers (cfg : Config) (w : World) (img : WImg) :
    (staticLayerStep cfg w img).1.base = img.base
      ∧ ((staticLayerStep cfg w img).1.layers = img.layers
        ∨ (staticLayerStep cfg w img).1.layers = img.layers ++ [Layer.static]) := by
  unfold staticLayerStep
  split_ifs <;> simp

theorem tmdbLayerStep_below (cfg : Config) (w : World) (tmdb_id : Nat)
    (img : WImg) (d : MovieMeta)
    (ht : cfg.APPLY_TMDB_RATING = true) (hd : w.details tmdb_id = some d)
    (hv : d.vote_count.getD 0 < cfg.MIN_VOTE_COUNT) :
    tmdbLayerStep cfg w tmdb_id img
      = (img, [Event.netGet (detailUrl cfg tmdb_id),
               Event.logMsg (belowMsg (d.vote_count.getD 0) cfg.MIN_VOTE_COUNT)]) := by
  simp [tmdbLayerStep, ht, get_movie_details, hd, hv]

/-- Shared shape of C5 and C10: a below-threshold vote count makes the
tmdb-badge layer a silent skip — no exception, the skip is logged, and the
final poster is still saved, composited from the base without any
`tmdbBadge` layer. -/
theorem below_threshold_skip_layer (cfg : Config) (w : World) (p : List String)
    (tmdb_id : Nat) (fs : FS) (v : Val) (d : MovieMeta)
    (ht : cfg.APPLY_TMDB_RATING = true) (hi : cfg.APPLY_IMDB_RATING = false)
    (hs : w.saveOk = true) (hd : w.details tmdb_id = some d)
    (hv : d.vote_count.getD 0 < cfg.MIN_VOTE_COUNT)
    (hc : fs (original_poster_path p) = some v) (hb : w.baseLoadOk v = true) :
    (process_movie_folder cfg w p tmdb_id fs).exn = none
      ∧ Event.logMsg (belowMsg (d.vote_count.getD 0) cfg.MIN_VOTE_COUNT)
          ∈ (process_movie_folder cfg w p tmdb_id fs).events
      ∧ ∃ ls, (process_movie_folder cfg w p tmdb_id fs).fs (final_poster_path p)
            = some (Val.jpeg v ls 95)
          ∧ ∀ pc, Layer.tmdbBadge pc ∉ ls := by
  have hf := fetch_poster_cached cfg w tmdb_id p fs v hc
  have htd := tmdbLayerStep_below cfg w tmdb_id (staticLayerStep cfg w ⟨v, []⟩).1 d ht hd hv
  obtain ⟨hbase, hlay⟩ := staticLayerStep_base_layers cfg w ⟨v, []⟩
  have hp : process_movie_folder cfg w p tmdb_id fs
      = saveFinal w fs (final_poster_path p) (staticLayerStep cfg w ⟨v, []⟩).1
          ((staticLayerStep cfg w ⟨v, []⟩).2
            ++ [Event.netGet (detailUrl cfg tmdb_id),
                Event.logMsg (belowMsg (d.vote_count.getD 0) cfg.MIN_VOTE_COUNT)]) := by
    rw [process_movie_folder]
    rw [hf]
    simp [hc, hb, hi, htd]
  refine ⟨?_, ?_, ?_⟩
  · rw [hp]; simp [saveFinal, hs]
  · rw [hp]; simp [saveFinal, hs]
  · refine ⟨(staticLayerStep cfg w ⟨v, []⟩).1.layers, ?_, ?_⟩
    · rw [hp]
      simp only [saveFinal, hs, if_true]
      rw [FS.write_self, hbase]
    · intro pc
      rcases hlay with h | h <;> rw [h] <;> simp

/-- C5: whenever the fetched vote count is strictly below the configured
threshold, the catalog-rating badge layer is never composited — regardless
of the average rating — and this is a silent per-layer skip: no exception
escapes, the skip is logged, and the final poster is still saved without any
`tmdbBadge` layer. -/
theorem below_threshold_never_composites (cfg : Config) (w : World)
    (p : List String) (tmdb_id : Nat) (fs : FS) (v : Val) (d : MovieMeta)
    (ht : cfg.APPLY_TMDB_RATING = true) (hi : cfg.APPLY_IMDB_RATING = false)
    (hs : w.saveOk = true) (hd : w.details tmdb_id = some d)
    (hv : d.vote_count.getD 0 < cfg.MIN_VOTE_COUNT)
    (hc : fs (original_poster_path p) = some v) (hb : w.baseLoadOk v = true) :
    (process_movie_folder cfg w p tmdb_id fs).exn = none
      ∧ Event.logMsg (belowMsg (d.vote_count.getD 0) cfg.MIN_VOTE_COUNT)
          ∈ (process_movie_folder cfg w p tmdb_id fs).events
      ∧ ∃ ls, (process_movie_folder cfg w p tmdb_id fs).fs (final_poster_path p)
            = some (Val.jpeg v ls 95)
          ∧ ∀ pc, Layer.tmdbBadge pc ∉ ls :=
  below_threshold_skip_layer cfg w p tmdb_id fs v d ht hi hs hd hv hc hb

/-- The metadata record of the C5 witness: high rating, low vote count. -/
def dC5 : MovieMeta := ⟨some "/p.jpg", some (95/10), some 10⟩

/-- The configuration of the C5/C10 witnesses: tmdb badge on, rest off. -/
def cfgC5 : Config := ⟨"k", 500, false, false, true, false, false, none, none, none, []⟩

/-- The world of the C5 witness. -/
def wC5 : World :=
  ⟨fun _ => some dC5, fun _ => none, true, fun _ => true, false, false,
   fun _ => true, fun _ => true, true, fun _ => true⟩

/-- The filesystem of the C5/C10 witnesses. -/
def fsC5 : FS :=
  fun q => if q = original_poster_path ["Movie (2020) [tmdbid-603]"]
    then some (Val.raw 7) else none

theorem below_threshold_never_composites_witness :
    cfgC5.APPLY_TMDB_RATING = true ∧ cfgC5.APPLY_IMDB_RATING = false
      ∧ wC5.saveOk = true ∧ wC5.details 603 = some dC5
      ∧ dC5.vote_count.getD 0 < cfgC5.MIN_VOTE_COUNT
      ∧ fsC5 (original_poster_path ["Movie (2020) [tmdbid-603]"]) = some (Val.raw 7)
      ∧ wC5.baseLoadOk (Val.raw 7) = true
      ∧ ((process_movie_folder cfgC5 wC5 ["Movie (2020) [tmdbid-603]"] 603 fsC5).exn = none
        ∧ Event.logMsg (belowMsg (dC5.vote_count.getD 0) cfgC5.MIN_VOTE_COUNT)
            ∈ (process_movie_folder cfgC5 wC5 ["Movie (2020) [tmdbid-603]"] 603 fsC5).events
        ∧ ∃ ls, (process_movie_folder cfgC5 wC5 ["Movie (2020) [tmdbid-603]"] 603 fsC5).fs
              (final_poster_path ["Movie (2020) [tmdbid-603]"]) = some (Val.jpeg (Val.raw 7) ls 95)
            ∧ ∀ pc, Layer.tmdbBadge pc ∉ ls) :=
  ⟨rfl, rfl, rfl, rfl, by decide, by simp [fsC5], rfl,
   below_threshold_never_composites cfgC5 wC5 _ 603 fsC5 (Val.raw 7) dC5
     rfl rfl rfl rfl (by decide) (by simp [fsC5]) rfl⟩

/-- C10: a metadata record that omits the vote-count field is read as 0
(line 219 `data.get("vote_count", 0)`), so with any positive threshold the
below-threshold branch is taken without failing: no exception, the skip is
logged with vote count 0, and the final poster is saved without a catalog
badge.  (A missing `vote_average` is likewise read as 0.0 at line 218.) -/
theorem missing_vote_count_skips_badge (cfg : Config) (w : World)
    (p : List String) (tmdb_id : Nat) (fs : FS) (v : Val) (d : MovieMeta)
    (ht : cfg.APPLY_TMDB_RATING = true) (hi : cfg.APPLY_IMDB_RATING = false)
    (hs : w.saveOk = true) (hd : w.details tmdb_id = some d)
    (hvc : d.vote_count = none) (hm : 0 < cfg.MIN_VOTE_COUNT)
    (hc : fs (original_poster_path p) = some v) (hb : w.baseLoadOk v = true) :
    (process_movie_folder cfg w p tmdb_id fs).exn = none
      ∧ Event.logMsg (belowMsg 0 cfg.MIN_VOTE_COUNT)
          ∈ (process_movie_folder cfg w p tmdb_id fs).events
      ∧ ∃ ls, (process_movie_folder cfg w p tmdb_id fs).fs (final_poster_path p)
            = some (Val.jpeg v ls 95)
          ∧ ∀ pc, Layer.tmdbBadge pc ∉ ls := by
  have h0 : d.vote_count.getD 0 = 0 := by rw [hvc]; rfl
  have h := below_threshold_skip_layer cfg w p tmdb_id fs v d ht hi hs hd
    (by rw [h0]; exact hm) hc hb
  rwa [h0] at h

/-- The metadata record of the C10 witness: every field absent. -/
def dC10 : MovieMeta := ⟨none, none, none⟩

/-- The world of the C10 witness. -/
def wC10 : World :=
  ⟨fun _ => some dC10, fun _ => none, true, fun _ => true, false, false,
   fun _ => true, fun _ => true, true, fun _ => true⟩

theorem missing_vote_count_skips_badge_witness :
    cfgC5.APPLY_TMDB_RATING = true ∧ cfgC5.APPLY_IMDB_RATING = false
      ∧ wC10.saveOk = true ∧ wC10.details 603 = some dC10
      ∧ dC10.vote_count = none ∧ 0 < cfgC5.MIN_VOTE_COUNT
      ∧ fsC5 (original_poster_path ["Movie (2020) [tmdbid-603]"]) = some (Val.raw 7)
      ∧ wC10.baseLoadOk (Val.raw 7) = true
      ∧ ((process_movie_folder cfgC5 wC10 ["Movie (2020) [tmdbid-603]"] 603 fsC5).exn = none
        ∧ Event.logMsg (belowMsg 0 cfgC5.MIN_VOTE_COUNT)
            ∈ (process_movie_folder cfgC5 wC10 ["Movie (2020) [tmdbid-603]"] 603 fsC5).events
        ∧ ∃ ls, (process_movie_folder cfgC5 wC10 ["Movie (2020) [tmdbid-603]"] 603 fsC5).fs
              (final_poster_path ["Movie (2020) [tmdbid-603]"]) = some (Val.jpeg (Val.raw 7) ls 95)
            ∧ ∀ pc, Layer.tmdbBadge pc ∉ ls) :=
  ⟨rfl, rfl, rfl, rfl, rfl, by decide, by simp [fsC5], rfl,
   missing_vote_count_skips_badge cfgC5 wC10 _ 603 fsC5 (Val.raw 7) dC10
     rfl rfl rfl rfl rfl (by decide) (by simp [fsC5]) rfl⟩

theorem scan_fst_sublist (l : List (List String × Bool)) :
    ((scan_movie_folders l).map Prod.fst).Sublist (l.map Prod.fst) := by
  induction l with
  | nil => simp [scan_movie_folders]
  | cons pb rest ih =>
    simp only [scan_movie_folders, List.filterMap_cons] at ih ⊢
    cases hm : folderMatch pb with
    | none => simp only [hm, Option.map_none', List.map_cons]; exact ih.cons _
    | some id => simp only [hm, Option.map_some', List.map_cons]; exact ih.cons₂ _

theorem scanner_nodup (l : List (List String × Bool))
    (h : (l.map Prod.fst).Nodup) : (scan_movie_folders l).Nodup :=
  List.Nodup.of_map Prod.fst (List.Nodup.sublist (scan_fst_sublist l) h)

/-- C7: the scanner yields exactly the directory entries of the listing that
are not named like the cache folder (case-insensitively) and whose name
contains the case-insensitive id pattern, pairing each with the parsed
integer id; an entry whose name lacks the pattern is never yielded; and
(given that the OS listing enumerates each path once) every matching
directory is yielded exactly once. -/
theorem scanner_correct (l : List (List String × Bool))
    (h : (l.map Prod.fst).Nodup) :
    (∀ p id, (p, id) ∈ scan_movie_folders l
        ↔ ((p, true) ∈ l ∧ notOriginal p = true ∧ tmdbSearch (nameOf p) = some id))
      ∧ (∀ p, tmdbSearch (nameOf p) = none → ∀ id, (p, id) ∉ scan_movie_folders l)
      ∧ (scan_movie_folders l).Nodup := by
  have hmem : ∀ p id, (p, id) ∈ scan_movie_folders l
      ↔ ((p, true) ∈ l ∧ notOriginal p = true ∧ tmdbSearch (nameOf p) = some id) := by
    intro p id
    constructor
    · intro hm
      rw [scan_movie_folders, List.mem_filterMap] at hm
      obtain ⟨pb, hpb, hf⟩ := hm
      cases hfm : folderMatch pb with
      | none => rw [hfm] at hf; simp at hf
      | some id2 =>
        rw [hfm] at hf
        simp only [Option.map_some', Option.some_inj, Prod.mk.injEq] at hf
        obtain ⟨he1, he2⟩ := hf
        rw [folderMatch] at hfm
        by_cases hcond : (pb.2 && notOriginal pb.1) = true
        · rw [if_pos hcond] at hfm
          rw [Bool.and_eq_true] at hcond
          obtain ⟨hb2, hno⟩ := hcond
          refine ⟨?_, by rw [← he1]; exact hno, by rw [← he1, ← he2]; exact hfm⟩
          have : pb = (p, true) := by
            obtain ⟨a, b⟩ := pb
            simp only at he1 hb2
            rw [he1, hb2]
          rwa [this] at hpb
        · rw [if_neg hcond] at hfm; cases hfm
    · rintro ⟨hmemb, hno, hs⟩
      rw [scan_movie_folders, List.mem_filterMap]
      exact ⟨(p, true), hmemb, by simp [folderMatch, hno, hs]⟩
  refine ⟨hmem, ?_, scanner_nodup l h⟩
  intro p hnone id hin
  have := ((hmem p id).mp hin).2.2
  rw [hnone] at this
  cases this

/-- The listing of the C7 witness: two matching folders, the cache folder, a
file, and a non-matching folder. -/
def listingC7 : List (List String × Bool) :=
  [(["Movie (2020) [tmdbid-603]"], true), (["original"], true),
   (["Another [TMDBID-42] film"], true), (["notes.txt"], false), (["plain"], true)]

theorem scanner_correct_witness :
    (listingC7.map Prod.fst).Nodup
      ∧ ((∀ p id, (p, id) ∈ scan_movie_folders listingC7
          ↔ ((p, true) ∈ listingC7 ∧ notOriginal p = true ∧ tmdbSearch (nameOf p) = some id))
        ∧ (∀ p, tmdbSearch (nameOf p) = none → ∀ id, (p, id) ∉ scan_movie_folders listingC7)
        ∧ (scan_movie_folders listingC7).Nodup) :=
  ⟨by decide, scanner_correct listingC7 (by decide)⟩

theorem restoreGo_preserves_orig :
    ∀ (l : List (List String × Bool)) (fs : FS) (n : Nat) (ev : List Event)
      (q : List String), q.getLast? = some ORIGINAL_POSTER_NAME →
      (restoreGo l fs n ev).1 q = fs q := by
  intro l
  induction l with
  | nil => intro fs n ev q hq; rfl
  | cons pb rest ih =>
    intro fs n ev q hq
    rw [restoreGo]
    by_cases hc : (pb.2 && notOriginal pb.1) = true
    · rw [if_pos hc]
      cases hv : fs (original_poster_path pb.1) with
      | none => exact ih _ _ _ _ hq
      | some v =>
        rw [ih _ _ _ _ hq]
        apply FS.write_ne
        intro he
        rw [he, final_poster_path_getLast] at hq
        have : FINAL_POSTER_NAME = ORIGINAL_POSTER_NAME := by injection hq
        exact absurd this (by decide)
    · rw [if_neg hc]; exact ih _ _ _ _ hq

theorem restoreGo_no_touch :
    ∀ (l : List (List String × Bool)) (fs : FS) (n : Nat) (ev : List Event)
      (a : List String), (∀ pb ∈ l, final_poster_path pb.1 ≠ a) →
      (restoreGo l fs n ev).1 a = fs a := by
  intro l
  induction l with
  | nil => intro fs n ev a _; rfl
  | cons pb rest ih =>
    intro fs n ev a hne
    rw [restoreGo]
    have hrest : ∀ pb2 ∈ rest, final_poster_path pb2.1 ≠ a :=
      fun pb2 hm => hne pb2 (List.mem_cons_of_mem pb hm)
    by_cases hc : (pb.2 && notOriginal pb.1) = true
    · rw [if_pos hc]
      cases hv : fs (original_poster_path pb.1) with
      | none => exact ih _ _ _ _ hrest
      | some v =>
        rw [ih _ _ _ _ hrest]
        exact FS.write_ne _ _ _ _ (fun he => hne pb (List.mem_cons_self pb rest) (by rw [he]))
    · rw [if_neg hc]; exact ih _ _ _ _ hrest

/-- One write of the restore loop never disturbs the agreement of the
threaded filesystem with the reference one on cache-file paths. -/
theorem write_final_keeps_orig_agreement (fs fs0 : FS) (p : List String) (v : Val)
    (hagree : ∀ q, q.getLast? = some ORIGINAL_POSTER_NAME → fs q = fs0 q) :
    ∀ q, q.getLast? = some ORIGINAL_POSTER_NAME →
      FS.write fs (final_poster_path p) v q = fs0 q := by
  intro q hq
  rw [FS.write_ne, hagree q hq]
  intro he
  rw [he, final_poster_path_getLast] at hq
  have : FINAL_POSTER_NAME = ORIGINAL_POSTER_NAME := by injection hq
  exact absurd this (by decide)

theorem restoreGo_count :
    ∀ (l : List (List String × Bool)) (fs : FS) (n : Nat) (ev : List Event) (fs0 : FS),
      (∀ q, q.getLast? = some ORIGINAL_POSTER_NAME → fs q = fs0 q) →
      (restoreGo l fs n ev).2.1 = n + (l.filter (isRestorable fs0)).length := by
  intro l
  induction l with
  | nil => intro fs n ev fs0 _; simp [restoreGo]
  | cons pb rest ih =>
    intro fs n ev fs0 hagree
    have horig : fs (original_poster_path pb.1) = fs0 (original_poster_path pb.1) :=
      hagree _ (original_poster_path_getLast pb.1)
    rw [restoreGo]
    by_cases hc : (pb.2 && notOriginal pb.1) = true
    · rw [if_pos hc]
      cases hv : fs (original_poster_path pb.1) with
      | none =>
        rw [ih _ _ _ _ hagree]
        have hr : isRestorable fs0 pb = false := by
          rw [isRestorable, hc]
          rw [← horig, hv]
          rfl
        rw [List.filter_cons, hr]
        simp
      | some v =>
        rw [ih _ _ _ _ (write_final_keeps_orig_agreement fs fs0 pb.1 v hagree)]
        have hr : isRestorable fs0 pb = true := by
          rw [isRestorable, hc]
          rw [← horig, hv]
          rfl
        rw [List.filter_cons, hr]
        simp only [if_true, List.length_cons]
        omega
    · rw [if_neg hc]
      rw [ih _ _ _ _ hagree]
      have hr : isRestorable fs0 pb = false := by
        rw [isRestorable]
        rw [Bool.not_eq_true] at hc
        rw [hc]
        rfl
      rw [List.filter_cons, hr]
      simp

theorem restoreGo_writes :
    ∀ (l : List (List String × Bool)) (fs : FS) (n : Nat) (ev : List Event)
      (fs0 : FS) (p : List String) (v : Val),
      (∀ q, q.getLast? = some ORIGINAL_POSTER_NAME → fs q = fs0 q) →
      (l.map Prod.fst).Nodup →
      (p, true) ∈ l → notOriginal p = true →
      fs0 (original_poster_path p) = some v →
      (restoreGo l fs n ev).1 (final_poster_path p) = some v := by
  intro l
  induction l with
  | nil => intro fs n ev fs0 p v _ _ hm; cases hm
  | cons pb rest ih =>
    intro fs n ev fs0 p v hagree hnd hmem hno hsrc
    rw [List.map_cons] at hnd
    obtain ⟨hhead, hndr⟩ := List.nodup_cons.mp hnd
    rcases List.mem_cons.mp hmem with he | hmem2
    · rw [restoreGo, ← he]
      have hcond : ((p, true).2 && notOriginal (p, true).1) = true := by
        simp [hno]
      rw [if_pos hcond]
      have horig : fs (original_poster_path p) = some v := by
        rw [hagree _ (original_poster_path_getLast p)]; exact hsrc
      rw [horig]
      have hnotin : p ∉ rest.map Prod.fst := by
        rw [← he] at hhead
        exact hhead
      rw [restoreGo_no_touch rest _ _ _ _ ?_]
      · exact FS.write_self fs _ v
      · intro pb2 hm2 heq
        exact hnotin (by
          rw [← final_poster_path_inj _ _ heq]
          exact List.mem_map_of_mem Prod.fst hm2)
    · have hp1 : pb.1 ≠ p := by
        intro he2
        exact hhead (by rw [he2]; exact List.mem_map_of_mem Prod.fst hmem2)
      rw [restoreGo]
      by_cases hc : (pb.2 && notOriginal pb.1) = true
      · rw [if_pos hc]
        cases hv : fs (original_poster_path pb.1) with
        | none => exact ih _ _ _ fs0 p v hagree hndr hmem2 hno hsrc
        | some v2 =>
          exact ih _ _ _ fs0 p v
            (write_final_keeps_orig_agreement fs fs0 pb.1 v2 hagree) hndr hmem2 hno hsrc
      · rw [if_neg hc]
        exact ih _ _ _ fs0 p v hagree hndr hmem2 hno hsrc

theorem restoreGo_skips :
    ∀ (l : List (List String × Bool)) (fs : FS) (n : Nat) (ev : List Event)
      (fs0 : FS) (p : List String),
      (∀ q, q.getLast? = some ORIGINAL_POSTER_NAME → fs q = fs0 q) →
      (l.map Prod.fst).Nodup →
      (p, true) ∈ l →
      fs0 (original_poster_path p) = none →
      (restoreGo l fs n ev).1 (final_poster_path p) = fs (final_poster_path p) := by
  intro l
  induction l with
  | nil => intro fs n ev fs0 p _ _ hm; cases hm
  | cons pb rest ih =>
    intro fs n ev fs0 p hagree hnd hmem hsrc
    rw [List.map_cons] at hnd
    obtain ⟨hhead, hndr⟩ := List.nodup_cons.mp hnd
    rcases List.mem_cons.mp hmem with he | hmem2
    · rw [restoreGo, ← he]
      have horig : fs (original_poster_path p) = none := by
        rw [hagree _ (original_poster_path_getLast p)]; exact hsrc
      have hnotin : p ∉ rest.map Prod.fst := by
        rw [← he] at hhead
        exact hhead
      have hrest : ∀ pb2 ∈ rest, final_poster_path pb2.1 ≠ final_poster_path p := by
        intro pb2 hm2 heq
        exact hnotin (by
          rw [← final_poster_path_inj _ _ heq]
          exact List.mem_map_of_mem Prod.fst hm2)
      by_cases hcond : (((p, true) : List String × Bool).2 && notOriginal (p, true).1) = true
      · rw [if_pos hcond, horig]
        exact restoreGo_no_touch rest _ _ _ _ hrest
      · rw [if_neg hcond]
        exact restoreGo_no_touch rest _ _ _ _ hrest
    · have hp1 : pb.1 ≠ p := by
        intro he2
        exact hhead (by rw [he2]; exact List.mem_map_of_mem Prod.fst hmem2)
      rw [restoreGo]
      by_cases hc : (pb.2 && notOriginal pb.1) = true
      · rw [if_pos hc]
        cases hv : fs (original_poster_path pb.1) with
        | none => exact ih _ _ _ fs0 p hagree hndr hmem2 hsrc
        | some v2 =>
          rw [ih _ _ _ fs0 p
            (write_final_keeps_orig_agreement fs fs0 pb.1 v2 hagree) hndr hmem2 hsrc]
          exact FS.write_ne _ _ _ _ (fun heq => hp1 (final_poster_path_inj _ _ heq).symm)
      · rw [if_neg hc]
        exact ih _ _ _ fs0 p hagree hndr hmem2 hsrc

/-- C8: given that the OS listing enumerates each path once, the restore
pass copies, for every non-cache-folder directory with a cached original,
that cached original byte-for-byte onto the final-poster path of the folder;
directories without a cached original are left untouched; the reported total
equals the number of entries restored; and no network request is issued. -/
theorem restore_correct (listing : List (List String × Bool)) (fs : FS)
    (h : (listing.map Prod.fst).Nodup) :
    (∀ p v, (p, true) ∈ listing → notOriginal p = true →
        fs (original_poster_path p) = some v →
        (restore_posters fs listing).1 (final_poster_path p) = some v)
      ∧ (∀ p, (p, true) ∈ listing →
        fs (original_poster_path p) = none →
        (restore_posters fs listing).1 (final_poster_path p) = fs (final_poster_path p))
      ∧ (restore_posters fs listing).2.1 = (listing.filter (isRestorable fs)).length
      ∧ netGetsOf (restore_posters fs listing).2.2 = [] := by
  refine ⟨?_, ?_, ?_, ?_⟩
  · intro p v hm hno hsrc
    exact restoreGo_writes listing fs 0 [] fs p v (fun q _ => rfl) h hm hno hsrc
  · intro p hm hsrc
    exact restoreGo_skips listing fs 0 [] fs p (fun q _ => rfl) h hm hsrc
  · simpa using restoreGo_count listing fs 0 [] fs (fun q _ => rfl)
  · exact restoreGo_netGets listing fs 0 []

/-- The listing of the C8 witness. -/
def listingC8 : List (List String × Bool) :=
  [(["MovieA"], true), (["MovieB"], true), (["original"], true)]

/-- The filesystem of the C8 witness: only MovieA has a cached original. -/
def fsC8 : FS :=
  fun q => if q = original_poster_path ["MovieA"] then some (Val.raw 11) else none

theorem restore_correct_witness :
    (listingC8.map Prod.fst).Nodup
      ∧ ((∀ p v, (p, true) ∈ listingC8 → notOriginal p = true →
          fsC8 (original_poster_path p) = some v →
          (restore_posters fsC8 listingC8).1 (final_poster_path p) = some v)
        ∧ (∀ p, (p, true) ∈ listingC8 →
          fsC8 (original_poster_path p) = none →
          (restore_posters fsC8 listingC8).1 (final_poster_path p) = fsC8 (final_poster_path p))
        ∧ (restore_posters fsC8 listingC8).2.1 = (listingC8.filter (isRestorable fsC8)).length
        ∧ netGetsOf (restore_posters fsC8 listingC8).2.2 = []) :=
  ⟨by decide, restore_correct listingC8 fsC8 (by decide)⟩

end Poster
